import Mathlib

/-!
Verification of the microgrid source-selection logic in `app3.py`.

The embedding covers the three core functions:
`calculate_sun_position`, `estimate_solar` (solar model, over ℝ since they
use trigonometry), `estimate_wind_power` (wind power curve, over ℚ) and
`ai_decision` (the rule-based decision engine, over ℚ).  Python float
arithmetic is modelled as exact arithmetic on ℚ/ℝ.
-/

namespace Energy

/-- A Python `datetime`-like value, restricted to the fields the code reads:
`timetuple().tm_yday`, `.hour` and `.minute`. -/
structure PyDateTime where
  tm_yday : ℕ
  hour : ℕ
  minute : ℕ
deriving DecidableEq, Repr

/-- `estimate_wind_power(wind_speed)` from `app3.py`:
cut-in below 3 m/s, cut-out above 25 m/s, rated 15 kW above 12 m/s,
cubic ramp `15.0 * ((wind_speed - 3) / (12 - 3)) ** 3` in between. -/
def estimate_wind_power (wind_speed : ℚ) : ℚ :=
  if wind_speed < 3 then 0
  else if 25 < wind_speed then 0
  else if 12 < wind_speed then 15.0
  else 15.0 * ((wind_speed - 3) / (12 - 3)) ^ 3

/-- `ai_decision(solar_irradiance, wind_speed, load_demand, battery_soc,
current_time=None)` from `app3.py`.  Returns the (label, emoji, reason)
triple.  The Python local `is_daytime` is computed but never read, so it is
kept here as a discarded binding. -/
def ai_decision (solar_irradiance wind_speed load_demand battery_soc : ℚ)
    (current_time : Option PyDateTime := none) : String × String × String :=
  let solar_power := solar_irradiance * 0.015
  let wind_power := estimate_wind_power wind_speed
  let _is_daytime := 50 < solar_irradiance
  let current_hour : ℕ := match current_time with
    | some t => t.hour
    | none => 12
  let is_night := current_hour < 6 ∨ 18 < current_hour
  if is_night ∨ solar_irradiance < 10 then
    ("Wind Power Recommended", "💨", "Solar not available - Night time or low sunlight")
  else if solar_irradiance < 100 then
    if 1.0 < wind_power then
      ("Wind Power Recommended", "💨", "Low solar conditions - Wind more reliable")
    else
      ("Solar Power Recommended", "☀️", "Minimal solar available but better than wind")
  else if wind_power ≤ solar_power ∧ 200 ≤ solar_irradiance then
    ("Solar Power Recommended", "☀️", "Strong solar conditions detected")
  else
    ("Wind Power Recommended", "💨", "Wind conditions favorable over solar")

/-- The decision cascade exactly as the spec words it (§4.3): four rules
evaluated in order, first match wins; the hour defaults to 12 when no
local time is supplied.  Written independently from the spec text, to be
compared with `ai_decision`. -/
def decide_source_spec (irradiance_w_m2 wind_speed_m_s load_kw battery_soc_pct : ℚ)
    (local_time : Option PyDateTime) : String × String × String :=
  let solar_kw := irradiance_w_m2 * 0.015
  let wind_kw := estimate_wind_power wind_speed_m_s
  let hour : ℕ := (local_time.map PyDateTime.hour).getD 12
  if hour < 6 ∨ 18 < hour ∨ irradiance_w_m2 < 10 then
    ("Wind Power Recommended", "💨", "Solar not available - Night time or low sunlight")
  else if irradiance_w_m2 < 100 ∧ 1.0 < wind_kw then
    ("Wind Power Recommended", "💨", "Low solar conditions - Wind more reliable")
  else if irradiance_w_m2 < 100 then
    ("Solar Power Recommended", "☀️", "Minimal solar available but better than wind")
  else if solar_kw ≥ wind_kw ∧ irradiance_w_m2 ≥ 200 then
    ("Solar Power Recommended", "☀️", "Strong solar conditions detected")
  else
    ("Wind Power Recommended", "💨", "Wind conditions favorable over solar")

/-- Python's `math.radians`. -/
noncomputable def radians (x : ℝ) : ℝ := x * Real.pi / 180

/-- Python's `math.degrees`. -/
noncomputable def degrees (x : ℝ) : ℝ := x * 180 / Real.pi

/-- `calculate_sun_position(lat, lon, dt)` from `app3.py`: solar elevation
angle in degrees from declination and hour angle.  `lon` is accepted but
unused, as in the source. -/
noncomputable def calculate_sun_position (lat lon : ℝ) (dt : PyDateTime) : ℝ :=
  let lat_rad := radians lat
  let day_of_year : ℝ := dt.tm_yday
  let declination := radians 23.45 * Real.sin (radians (360 * (284 + day_of_year) / 365))
  let hour : ℝ := (dt.hour : ℝ) + (dt.minute : ℝ) / 60
  let hour_angle := radians (15 * (hour - 12))
  let elevation := Real.arcsin
    (Real.sin declination * Real.sin lat_rad +
      Real.cos declination * Real.cos lat_rad * Real.cos hour_angle)
  degrees elevation

/-- `estimate_solar(lat, lon, cloud_cover, dt)` from `app3.py`: clear-sky
irradiance `1000 * sin(radians(elevation))` (0 below the horizon), scaled by
the cloud factor `1 - (cloud_cover / 100) * 0.75`, clamped at zero. -/
noncomputable def estimate_solar (lat lon cloud_cover : ℝ) (dt : PyDateTime) : ℝ :=
  let sun_elevation := calculate_sun_position lat lon dt
  let base_irradiance : ℝ :=
    if sun_elevation ≤ 0 then 0 else 1000 * Real.sin (radians sun_elevation)
  let cloud_factor := 1 - (cloud_cover / 100) * 0.75
  let estimated_irradiance := base_irradiance * cloud_factor
  max 0 estimated_irradiance

/-! ### Claims about the wind power curve and the decision engine -/

/-- C1 counterexample: `decide_source(irradiance=150, wind=13, load=10, soc=50)`
does NOT return the branch-2 reason.  Since 150 ≥ 100, branch 2 (`irradiance <
100`) cannot fire; the claimed (label, reason) pair is not produced. -/
theorem ai_decision_example_not_branch2 :
    ai_decision 150 13 10 50 none ≠
      ("Wind Power Recommended", "💨", "Low solar conditions - Wind more reliable") := by
  norm_num [ai_decision, estimate_wind_power]
  decide

/-- C1 amended: `decide_source(irradiance=150, wind=13, load=10, soc=50)` with
hour defaulting to 12 returns WindRecommended, but via branch 4 ("wind
favorable over solar"): irradiance = 150 ≥ 100 skips branch 2, and
solar_kw = 2.25 < wind_kw = 15.0 with irradiance < 200 skips branch 3. -/
theorem ai_decision_example_branch4 :
    ai_decision 150 13 10 50 none =
      ("Wind Power Recommended", "💨", "Wind conditions favorable over solar") := by
  norm_num [ai_decision, estimate_wind_power]

/-- C3: the decision is independent of `load_kw` and `battery_soc_pct` — for
any two values of each, with every other input fixed, `ai_decision` returns
the same (label, emoji, reason) triple. -/
theorem ai_decision_ignores_load_and_soc
    (irr ws l1 soc1 l2 soc2 : ℚ) (t : Option PyDateTime) :
    ai_decision irr ws l1 soc1 t = ai_decision irr ws l2 soc2 t := rfl

/-- C9: every wind speed strictly below the 3 m/s cut-in, including negative
(physically meaningless) speeds, yields exactly 0 kW — the cut-in branch
absorbs out-of-domain inputs rather than erroring or going negative. -/
theorem estimate_wind_power_below_cutin (s : ℚ) (h : s < 3) :
    estimate_wind_power s = 0 := by
  simp [estimate_wind_power, if_pos h]

/-- C9 witness: the negative speed −4 m/s yields 0 kW. -/
theorem estimate_wind_power_below_cutin_witness :
    estimate_wind_power (-4) = 0 :=
  estimate_wind_power_below_cutin (-4) (by norm_num)

/-- C5: the wind power curve is the stated piecewise function: 0 on [0,3),
0 above 25, exactly 15.0 on (12,25], and the cubic ramp
`15.0 * ((s - 3) / 9) ^ 3` on [3,12]. -/
theorem estimate_wind_power_piecewise (s : ℚ) :
    (0 ≤ s → s < 3 → estimate_wind_power s = 0) ∧
    (25 < s → estimate_wind_power s = 0) ∧
    (12 < s → s ≤ 25 → estimate_wind_power s = 15.0) ∧
    (3 ≤ s → s ≤ 12 → estimate_wind_power s = 15.0 * ((s - 3) / 9) ^ 3) := by
  refine ⟨fun _ h1 => ?_, fun h2 => ?_, fun h3 h4 => ?_, fun h5 h6 => ?_⟩ <;>
    unfold estimate_wind_power <;> split_ifs <;> first | rfl | linarith

/-- C5 witness: each piece evaluated at a concrete speed: 2, 26, 13 and
6 m/s land in the four pieces respectively. -/
theorem estimate_wind_power_piecewise_witness :
    estimate_wind_power 2 = 0 ∧ estimate_wind_power 26 = 0 ∧
    estimate_wind_power 13 = 15.0 ∧
    estimate_wind_power 6 = 15.0 * ((6 - 3) / 9) ^ 3 :=
  ⟨(estimate_wind_power_piecewise 2).1 (by norm_num) (by norm_num),
   (estimate_wind_power_piecewise 26).2.1 (by norm_num),
   (estimate_wind_power_piecewise 13).2.2.1 (by norm_num) (by norm_num),
   (estimate_wind_power_piecewise 6).2.2.2 (by norm_num) (by norm_num)⟩

/-- C6: the curve is non-decreasing on [3,12], takes the value 0 at 3 and
15.0 at 12, and every output (at any speed whatsoever) lies in [0,15]. -/
theorem estimate_wind_power_monotone_bounds (a b s : ℚ)
    (h3 : 3 ≤ a) (hab : a ≤ b) (h12 : b ≤ 12) :
    estimate_wind_power a ≤ estimate_wind_power b ∧
    estimate_wind_power 3 = 0 ∧ estimate_wind_power 12 = 15.0 ∧
    0 ≤ estimate_wind_power s ∧ estimate_wind_power s ≤ 15 := by
  have hcube : ∀ x : ℚ, 3 ≤ x → x ≤ 12 →
      estimate_wind_power x = 15.0 * ((x - 3) / (12 - 3)) ^ 3 := by
    intro x hx hx'
    unfold estimate_wind_power
    split_ifs <;> first | rfl | linarith
  refine ⟨?_, ?_, ?_, ?_, ?_⟩
  · rw [hcube a h3 (le_trans hab h12), hcube b (le_trans h3 hab) h12]
    have ha0 : (0 : ℚ) ≤ (a - 3) / (12 - 3) := by
      apply div_nonneg <;> linarith
    have hle : (a - 3) / (12 - 3) ≤ (b - 3) / (12 - 3) := by
      apply div_le_div_of_nonneg_right (by linarith) (by norm_num)
    have := pow_le_pow_left₀ ha0 hle 3
    nlinarith [this]
  · rw [hcube 3 le_rfl (by norm_num)]; norm_num
  · rw [hcube 12 (by norm_num) le_rfl]; norm_num
  · unfold estimate_wind_power
    split_ifs with hs1 hs2 hs3
    · exact le_refl 0
    · exact le_refl 0
    · norm_num
    · have h0 : (0 : ℚ) ≤ (s - 3) / (12 - 3) := by
        apply div_nonneg <;> linarith
      positivity
  · unfold estimate_wind_power
    split_ifs with hs1 hs2 hs3
    · norm_num
    · norm_num
    · norm_num
    · have h0 : (0 : ℚ) ≤ (s - 3) / (12 - 3) := by
        apply div_nonneg <;> linarith
      have h1 : (s - 3) / (12 - 3) ≤ 1 := by
        rw [div_le_one (by norm_num)]; linarith
      nlinarith [pow_le_one₀ h0 h1 (n := 3)]

/-- C6 witness: at a = 3, b = 12, s = 7 the monotonicity and bound facts hold
concretely. -/
theorem estimate_wind_power_monotone_bounds_witness :
    estimate_wind_power 3 ≤ estimate_wind_power 12 ∧
    estimate_wind_power 3 = 0 ∧ estimate_wind_power 12 = 15.0 ∧
    0 ≤ estimate_wind_power 7 ∧ estimate_wind_power 7 ≤ 15 :=
  estimate_wind_power_monotone_bounds 3 12 7 (by norm_num) (by norm_num) (by norm_num)

/-- C2: `ai_decision` is exactly the four-rule first-match cascade of the
spec (night/negligible-sun, dawn-dusk wind-vs-solar, strong solar, default
wind), and an absent `local_time` behaves as hour 12, so the night rule
cannot fire on the hour condition. -/
theorem ai_decision_matches_spec_cascade (irr ws l soc : ℚ)
    (t : Option PyDateTime) (d m : ℕ) :
    ai_decision irr ws l soc t = decide_source_spec irr ws l soc t ∧
    ai_decision irr ws l soc none = ai_decision irr ws l soc (some ⟨d, 12, m⟩) := by
  constructor
  · cases t with
    | none =>
        simp only [ai_decision, decide_source_spec, Option.map_none', Option.getD_none,
          ge_iff_le]
        split_ifs <;> first | rfl | tauto
    | some u =>
        simp only [ai_decision, decide_source_spec, Option.map_some', Option.getD_some,
          ge_iff_le]
        split_ifs <;> first | rfl | tauto
  · rfl

/-! ### Helper lemmas for the solar model -/

/-- Converting degrees to radians inverts `degrees`. -/
lemma radians_degrees (x : ℝ) : radians (degrees x) = x := by
  unfold radians degrees
  field_simp

/-- `degrees` preserves sign. -/
lemma degrees_pos {x : ℝ} (h : 0 < x) : 0 < degrees x := by
  unfold degrees
  have hpi := Real.pi_pos
  positivity

/-- `degrees` reflects positivity. -/
lemma pos_of_degrees_pos {x : ℝ} (h : 0 < degrees x) : 0 < x := by
  unfold degrees at h
  have hpi := Real.pi_pos
  have h2 : 0 < x * 180 := by
    have h3 := mul_pos h hpi
    rwa [div_mul_cancel₀ _ (ne_of_gt hpi)] at h3
  linarith

/-- `calculate_sun_position` written with its `let`s resolved. -/
lemma calculate_sun_position_eq (lat lon : ℝ) (dt : PyDateTime) :
    calculate_sun_position lat lon dt =
      degrees (Real.arcsin
        (Real.sin (radians 23.45 *
            Real.sin (radians (360 * (284 + (dt.tm_yday : ℝ)) / 365))) *
          Real.sin (radians lat) +
        Real.cos (radians 23.45 *
            Real.sin (radians (360 * (284 + (dt.tm_yday : ℝ)) / 365))) *
          Real.cos (radians lat) *
          Real.cos (radians (15 * ((dt.hour : ℝ) + (dt.minute : ℝ) / 60 - 12))))) := rfl

/-- The base (clear-sky) irradiance term of `estimate_solar` is nonnegative:
it is 0 below the horizon, and `1000 * sin(radians(elevation))` otherwise,
where the elevation is `degrees (arcsin _) ∈ (0, 90]` so its sine is ≥ 0. -/
lemma base_irradiance_nonneg (lat lon : ℝ) (dt : PyDateTime) :
    0 ≤ (if calculate_sun_position lat lon dt ≤ 0 then (0 : ℝ)
        else 1000 * Real.sin (radians (calculate_sun_position lat lon dt))) := by
  split_ifs with h
  · exact le_refl 0
  · push_neg at h
    rw [calculate_sun_position_eq] at h ⊢
    rw [radians_degrees]
    have harc := pos_of_degrees_pos h
    have hle := Real.arcsin_le_pi_div_two
      (Real.sin (radians 23.45 *
          Real.sin (radians (360 * (284 + (dt.tm_yday : ℝ)) / 365))) *
        Real.sin (radians lat) +
      Real.cos (radians 23.45 *
          Real.sin (radians (360 * (284 + (dt.tm_yday : ℝ)) / 365))) *
        Real.cos (radians lat) *
        Real.cos (radians (15 * ((dt.hour : ℝ) + (dt.minute : ℝ) / 60 - 12))))
    have hpi := Real.pi_pos
    have hsin := Real.sin_nonneg_of_nonneg_of_le_pi (le_of_lt harc)
      (by linarith)
    positivity

/-- The declination angle `radians(23.45) * sin θ` lies strictly inside
(-π/2, π/2), so its cosine is positive. -/
lemma cos_declination_pos (θ : ℝ) : 0 < Real.cos (radians 23.45 * Real.sin θ) := by
  have hpi := Real.pi_pos
  have hs1 := Real.neg_one_le_sin θ
  have hs2 := Real.sin_le_one θ
  have hm1 : 0 ≤ Real.pi * (1 + Real.sin θ) :=
    mul_nonneg (le_of_lt hpi) (by linarith)
  have hm2 : 0 ≤ Real.pi * (1 - Real.sin θ) :=
    mul_nonneg (le_of_lt hpi) (by linarith)
  apply Real.cos_pos_of_mem_Ioo
  rw [Set.mem_Ioo]
  unfold radians
  constructor
  · nlinarith
  · nlinarith

/-- Nonpositive angles stay nonpositive under `degrees`. -/
lemma degrees_nonpos {x : ℝ} (h : x ≤ 0) : degrees x ≤ 0 := by
  unfold degrees
  exact div_nonpos_iff.mpr (Or.inr ⟨by linarith, le_of_lt Real.pi_pos⟩)

/-- At local midnight on the equator the computed sun elevation is ≤ 0. -/
lemma sun_midnight_nonpos : calculate_sun_position 0 0 ⟨1, 0, 0⟩ ≤ 0 := by
  have harg : Real.cos (radians (15 * (((0 : ℕ) : ℝ) + ((0 : ℕ) : ℝ) / 60 - 12))) = -1 := by
    have hpi : radians (15 * (((0 : ℕ) : ℝ) + ((0 : ℕ) : ℝ) / 60 - 12)) = -Real.pi := by
      unfold radians; push_cast; ring
    rw [hpi, Real.cos_neg, Real.cos_pi]
  rw [calculate_sun_position_eq]
  apply degrees_nonpos
  rw [Real.arcsin_nonpos]
  show Real.sin (radians 23.45 *
        Real.sin (radians (360 * (284 + ((1 : ℕ) : ℝ)) / 365))) * Real.sin (radians 0) +
      Real.cos (radians 23.45 *
        Real.sin (radians (360 * (284 + ((1 : ℕ) : ℝ)) / 365))) * Real.cos (radians 0) *
        Real.cos (radians (15 * (((0 : ℕ) : ℝ) + ((0 : ℕ) : ℝ) / 60 - 12))) ≤ 0
  have h0 : radians 0 = 0 := by unfold radians; ring
  rw [harg, h0, Real.sin_zero, Real.cos_zero, mul_zero, zero_add, mul_one]
  have hd := cos_declination_pos (radians (360 * (284 + ((1 : ℕ) : ℝ)) / 365))
  linarith

/-- At local noon on the equator (day 172) the computed sun elevation is
strictly positive. -/
lemma sun_noon_pos : 0 < calculate_sun_position 0 0 ⟨172, 12, 0⟩ := by
  rw [calculate_sun_position_eq]
  apply degrees_pos
  rw [Real.arcsin_pos]
  show 0 < Real.sin (radians 23.45 *
        Real.sin (radians (360 * (284 + ((172 : ℕ) : ℝ)) / 365))) * Real.sin (radians 0) +
      Real.cos (radians 23.45 *
        Real.sin (radians (360 * (284 + ((172 : ℕ) : ℝ)) / 365))) * Real.cos (radians 0) *
        Real.cos (radians (15 * (((12 : ℕ) : ℝ) + ((0 : ℕ) : ℝ) / 60 - 12)))
  have hha : radians (15 * (((12 : ℕ) : ℝ) + ((0 : ℕ) : ℝ) / 60 - 12)) = 0 := by
    unfold radians; push_cast; ring
  have h0 : radians 0 = 0 := by unfold radians; ring
  rw [hha, h0, Real.sin_zero, Real.cos_zero, mul_zero, zero_add, mul_one, mul_one]
  exact cos_declination_pos _

/-- Any expression `sin d * sin l + cos d * cos l * cos h` lies in [-1,1]. -/
lemma trig_combination_bounds (d l h : ℝ) :
    -1 ≤ Real.sin d * Real.sin l + Real.cos d * Real.cos l * Real.cos h ∧
    Real.sin d * Real.sin l + Real.cos d * Real.cos l * Real.cos h ≤ 1 := by
  have h1 := Real.sin_sq_add_cos_sq d
  have h2 := Real.sin_sq_add_cos_sq l
  have h3 := Real.neg_one_le_cos h
  have h4 := Real.cos_le_one h
  have p1 : 0 ≤ (1 + Real.cos h) *
      ((Real.sin d - Real.sin l) ^ 2 + (Real.cos d - Real.cos l) ^ 2) :=
    mul_nonneg (by linarith) (by positivity)
  have p2 : 0 ≤ (1 - Real.cos h) *
      ((Real.sin d - Real.sin l) ^ 2 + (Real.cos d + Real.cos l) ^ 2) :=
    mul_nonneg (by linarith) (by positivity)
  have p3 : 0 ≤ (1 + Real.cos h) *
      ((Real.sin d + Real.sin l) ^ 2 + (Real.cos d + Real.cos l) ^ 2) :=
    mul_nonneg (by linarith) (by positivity)
  have p4 : 0 ≤ (1 - Real.cos h) *
      ((Real.sin d + Real.sin l) ^ 2 + (Real.cos d - Real.cos l) ^ 2) :=
    mul_nonneg (by linarith) (by positivity)
  constructor
  · nlinarith [p3, p4, h1, h2]
  · nlinarith [p1, p2, h1, h2]

/-! ### Claims about the solar model -/

/-- C4: whenever the computed sun elevation is ≤ 0 the estimated irradiance
is 0, and the estimate is ≥ 0 for all inputs. -/
theorem estimate_solar_below_horizon_zero_and_nonneg
    (lat lon cloud : ℝ) (dt : PyDateTime) :
    (calculate_sun_position lat lon dt ≤ 0 → estimate_solar lat lon cloud dt = 0) ∧
    0 ≤ estimate_solar lat lon cloud dt := by
  constructor
  · intro h
    simp only [estimate_solar]
    rw [if_pos h, zero_mul]
    exact max_self 0
  · simp only [estimate_solar]
    exact le_max_left 0 _

/-- C4 witness: at the equator at local midnight (day 1, 00:00) the elevation
is ≤ 0 and the irradiance estimate is 0 (and ≥ 0). -/
theorem estimate_solar_below_horizon_witness :
    estimate_solar 0 0 30 ⟨1, 0, 0⟩ = 0 ∧ 0 ≤ estimate_solar 0 0 30 ⟨1, 0, 0⟩ :=
  ⟨(estimate_solar_below_horizon_zero_and_nonneg 0 0 30 ⟨1, 0, 0⟩).1 sun_midnight_nonpos,
   (estimate_solar_below_horizon_zero_and_nonneg 0 0 30 ⟨1, 0, 0⟩).2⟩

/-- C7: for a fixed latitude and timestamp with the sun above the horizon,
the irradiance estimate is non-increasing in cloud cover on [0,100]. -/
theorem estimate_solar_antitone_in_cloud (lat lon c1 c2 : ℝ) (dt : PyDateTime)
    (h0 : 0 ≤ c1) (h12 : c1 ≤ c2) (h100 : c2 ≤ 100)
    (helev : 0 < calculate_sun_position lat lon dt) :
    estimate_solar lat lon c2 dt ≤ estimate_solar lat lon c1 dt := by
  simp only [estimate_solar]
  apply max_le_max (le_refl 0)
  apply mul_le_mul_of_nonneg_left _ (base_irradiance_nonneg lat lon dt)
  linarith

/-- C7 witness: at equatorial noon (day 172), full cloud cover gives at most
the clear-sky estimate. -/
theorem estimate_solar_antitone_in_cloud_witness :
    estimate_solar 0 0 100 ⟨172, 12, 0⟩ ≤ estimate_solar 0 0 0 ⟨172, 12, 0⟩ :=
  estimate_solar_antitone_in_cloud 0 0 0 100 ⟨172, 12, 0⟩ (le_refl 0)
    (by norm_num) (by norm_num) sun_noon_pos

/-- C10: any cloud cover ≥ 400/3 % makes the attenuation factor ≤ 0, and the
final clamp returns exactly 0 for every latitude and timestamp. -/
theorem estimate_solar_overrange_cloud_zero (cloud : ℝ) (h : 400 / 3 ≤ cloud)
    (lat lon : ℝ) (dt : PyDateTime) :
    estimate_solar lat lon cloud dt = 0 := by
  simp only [estimate_solar]
  have hB := base_irradiance_nonneg lat lon dt
  have hf : 1 - cloud / 100 * 0.75 ≤ 0 := by norm_num at h ⊢; linarith
  apply max_eq_left
  nlinarith [hB, hf]

/-- C10 witness: 200 % cloud cover at equatorial noon (sun strictly above
the horizon) still yields an estimate of exactly 0. -/
theorem estimate_solar_overrange_cloud_zero_witness :
    estimate_solar 0 0 200 ⟨172, 12, 0⟩ = 0 ∧
    0 < calculate_sun_position 0 0 ⟨172, 12, 0⟩ :=
  ⟨estimate_solar_overrange_cloud_zero 200 (by norm_num) 0 0 ⟨172, 12, 0⟩,
   sun_noon_pos⟩

/-- C8: the sun-position computation is exactly
`degrees (asin (sin decl * sin lat + cos decl * cos lat * cos hour_angle))`
with `decl = radians 23.45 * sin (radians (360 * (284 + day) / 365))` and
`hour_angle = radians (15 * (hour + minute/60 - 12))`, and the argument of
`asin` always lies in [-1,1], for every latitude including the poles. -/
theorem calculate_sun_position_formula (lat lon : ℝ) (dt : PyDateTime) :
    calculate_sun_position lat lon dt =
      degrees (Real.arcsin
        (Real.sin (radians 23.45 *
            Real.sin (radians (360 * (284 + (dt.tm_yday : ℝ)) / 365))) *
          Real.sin (radians lat) +
        Real.cos (radians 23.45 *
            Real.sin (radians (360 * (284 + (dt.tm_yday : ℝ)) / 365))) *
          Real.cos (radians lat) *
          Real.cos (radians (15 * ((dt.hour : ℝ) + (dt.minute : ℝ) / 60 - 12))))) ∧
    -1 ≤ Real.sin (radians 23.45 *
            Real.sin (radians (360 * (284 + (dt.tm_yday : ℝ)) / 365))) *
          Real.sin (radians lat) +
        Real.cos (radians 23.45 *
            Real.sin (radians (360 * (284 + (dt.tm_yday : ℝ)) / 365))) *
          Real.cos (radians lat) *
          Real.cos (radians (15 * ((dt.hour : ℝ) + (dt.minute : ℝ) / 60 - 12))) ∧
    Real.sin (radians 23.45 *
            Real.sin (radians (360 * (284 + (dt.tm_yday : ℝ)) / 365))) *
          Real.sin (radians lat) +
        Real.cos (radians 23.45 *
            Real.sin (radians (360 * (284 + (dt.tm_yday : ℝ)) / 365))) *
          Real.cos (radians lat) *
          Real.cos (radians (15 * ((dt.hour : ℝ) + (dt.minute : ℝ) / 60 - 12))) ≤ 1 :=
  ⟨rfl,
   (trig_combination_bounds _ _ _).1,
   (trig_combination_bounds _ _ _).2⟩

end Energy
